import Mathlib

/-!
Shallow embedding of `deploy.py` (DMAP Application Deployment Script).

The script is sequential glue code: every external effect is a
`subprocess.run` call whose outcome we model explicitly.  An `ExtEnv`
records, for each distinct external invocation, either `none` (the call
raised an exception) or `some` of its observable result (the return code,
or for the image-existence query its captured stdout).  File writes are
modelled by threading the inventory-file state (`Option Inventory`)
through the functions; the step sequencing of the `deploy` flow is made
observable as a list of `Event`s, in the order the Python code performs
them.

The VM configuration (a Python dict with insertion-ordered iteration) is
modelled as an association list `List (String × List String)`: VM name to
the value list that the code unpacks as `(ip, username, service)`.
-/

/-- Outcomes of the external subprocess invocations: `none` models the
call raising an exception, `some` its observable result. -/
structure ExtEnv where
  imagesQuery : Option String
  buildRun : Option Int
  connectivityRun : Option Int
  dockerCheckRun : Option Int
  setupDockerRun : Option Int
  deployRun : Option Int
  verifyRun : Option Int
deriving DecidableEq

/-- A host entry written into the generated inventory document. -/
structure HostEntry where
  ansible_host : String
  ansible_user : String
deriving DecidableEq

/-- The `all.vars` block of the generated inventory document. -/
structure InventoryVars where
  ansible_ssh_private_key_file : String
  ansible_ssh_common_args : String
  docker_registry : String
  docker_repo : String
  docker_hub_username : String
  docker_hub_password : String
deriving DecidableEq

/-- The generated inventory document: one named host entry per role group
under `all.children`, plus the shared `all.vars` block. -/
structure Inventory where
  backend : String × HostEntry
  postgres : String × HostEntry
  neo4j : String × HostEntry
  kafka : String × HostEntry
  vars : InventoryVars
deriving DecidableEq

/-- The literal `all.vars` block that `update_inventory` always writes. -/
def inventoryVars : InventoryVars :=
  { ansible_ssh_private_key_file := "~/.ssh/id_rsa"
    ansible_ssh_common_args := "-o StrictHostKeyChecking=no"
    docker_registry := "ngdmapo"
    docker_repo := "dmap_app_modernization"
    docker_hub_username :=
      "\x7b\x7b lookup(\x27env\x27, \x27DOCKER_HUB_USERNAME\x27) | default(\x27ngdmapo\x27) \x7d\x7d"
    docker_hub_password :=
      "\x7b\x7b lookup(\x27env\x27, \x27DOCKER_HUB_PASSWORD\x27) | default(\x27\x27) \x7d\x7d" }

/-- The value of `service_to_vm[service]` built by `update_inventory`. -/
structure VmInfo where
  vm_name : String
  ip : String
  username : String
deriving DecidableEq

/-- The VM configuration type: dict of VM name to value list. -/
abbrev VmConfig := List (String × List String)

/-- Python's `str.strip()`: remove leading and trailing whitespace. -/
def pyStrip (s : String) : String :=
  String.mk
    (((s.data.dropWhile Char.isWhitespace).reverse.dropWhile
      Char.isWhitespace).reverse)

/-- The role (third element) of a configuration entry's value, when the
value unpacks as a triple. -/
def entryRole (e : String × List String) : Option String :=
  match e.2 with
  | [_, _, service] => some service
  | _ => none

/-- Whether a configuration entry carries the given role. -/
def hasRole (r : String) (e : String × List String) : Bool :=
  entryRole e == some r

/-- Python dict assignment `d[k] = v` on an association list: replace the
binding in place if the key is present, else append. -/
def assocSet (l : List (String × VmInfo)) (k : String) (v : VmInfo) :
    List (String × VmInfo) :=
  match l with
  | [] => [(k, v)]
  | (k', v') :: rest =>
    if k' = k then (k, v) :: rest else (k', v') :: assocSet rest k v

/-- Python dict lookup `d[k]` on an association list. -/
def lookupA (l : List (String × VmInfo)) (k : String) : Option VmInfo :=
  match l with
  | [] => none
  | (k', v') :: rest => if k' = k then some v' else lookupA rest k

/-- The first loop of `update_inventory`: builds `service_to_vm` by
assigning `service_to_vm[service]` for each entry in iteration order;
`none` models the unpacking `ValueError` when a value is not a triple. -/
def buildAux (cfg : VmConfig) (acc : List (String × VmInfo)) :
    Option (List (String × VmInfo)) :=
  match cfg with
  | [] => some acc
  | e :: rest =>
    match e.2 with
    | [ip, username, service] =>
      buildAux rest (assocSet acc service ⟨e.1, ip, username⟩)
    | _ => none

/-- `service_to_vm` as built from an empty dict. -/
def buildServiceToVm (cfg : VmConfig) : Option (List (String × VmInfo)) :=
  buildAux cfg []

/-- The last configuration entry carrying the given role, as the
`VmInfo` that `update_inventory` would record for it.  (Specification
helper used to characterise the dict's last-write-wins behaviour.) -/
def lastWithRole (cfg : VmConfig) (r : String) : Option VmInfo :=
  match cfg with
  | [] => none
  | e :: rest =>
    match lastWithRole rest r with
    | some v => some v
    | none =>
      match e.2 with
      | [ip, username, service] =>
        if service = r then some ⟨e.1, ip, username⟩ else none
      | _ => none

/-- The inventory document assembled from the four role lookups. -/
def mkInventory (b p n k : VmInfo) : Inventory :=
  { backend := (b.vm_name, ⟨b.ip, b.username⟩)
    postgres := (p.vm_name, ⟨p.ip, p.username⟩)
    neo4j := (n.vm_name, ⟨n.ip, n.username⟩)
    kafka := (k.vm_name, ⟨k.ip, k.username⟩)
    vars := inventoryVars }

namespace DMAPDeployer

/-- `check_container_exists`: runs `docker images -q ansible-control` and
returns whether the captured stdout is nonempty after stripping; an
exception yields `False`. -/
def check_container_exists (env : ExtEnv) : Bool :=
  match env.imagesQuery with
  | none => false
  | some out => !(pyStrip out).isEmpty

/-- The external commands `build_ansible_container` may invoke. -/
inductive Cmd where
  | dockerImagesQuery
  | dockerBuild
deriving DecidableEq

/-- `build_ansible_container` with its invoked commands made observable:
short-circuits to success when the image-existence query reports the
image present, otherwise runs `docker build` and succeeds on exit 0
(exception: `False`). -/
def build_ansible_container_t (env : ExtEnv) : Bool × List Cmd :=
  if check_container_exists env then
    (true, [Cmd.dockerImagesQuery])
  else
    match env.buildRun with
    | none => (false, [Cmd.dockerImagesQuery, Cmd.dockerBuild])
    | some rc => (rc == 0, [Cmd.dockerImagesQuery, Cmd.dockerBuild])

/-- `build_ansible_container`'s boolean result. -/
def build_ansible_container (env : ExtEnv) : Bool :=
  (build_ansible_container_t env).1

/-- `check_docker_on_vms`: exit 0 of the version-probe command means the
runtime is available on all VMs; an exception yields `False`. -/
def check_docker_on_vms (env : ExtEnv) : Bool :=
  match env.dockerCheckRun with
  | none => false
  | some rc => rc == 0

/-- `test_connectivity`: exit 0 of the ansible ping command means all VMs
are reachable; an exception yields `False`. -/
def test_connectivity (env : ExtEnv) : Bool :=
  match env.connectivityRun with
  | none => false
  | some rc => rc == 0

/-- `run_deployment`: exit 0 of the deployment playbook run; an exception
yields `False`. -/
def run_deployment (env : ExtEnv) : Bool :=
  match env.deployRun with
  | none => false
  | some rc => rc == 0

/-- `setup_docker`: exit 0 of the setup-docker playbook run; an exception
yields `False`. -/
def setup_docker (env : ExtEnv) : Bool :=
  match env.setupDockerRun with
  | none => false
  | some rc => rc == 0

/-- `verify_deployment` (dead code in the primary flow): exit 0 of the
listing command; an exception yields `False`. -/
def verify_deployment (env : ExtEnv) : Bool :=
  match env.verifyRun with
  | none => false
  | some rc => rc == 0

/-- `update_inventory`: builds `service_to_vm` from the configuration
(an unpacking error is caught and yields `False`), then constructs the
inventory document, whose four role lookups all happen before the file is
opened for writing — a missing role raises `KeyError`, caught as `False`,
leaving the file state `fs` unchanged.  On success the document is
written (the file state becomes `some` of it) and `True` is returned. -/
def update_inventory (cfg : VmConfig) (fs : Option Inventory) :
    Bool × Option Inventory :=
  match buildServiceToVm cfg with
  | none => (false, fs)
  | some m =>
    match lookupA m "backend", lookupA m "postgres",
        lookupA m "neo4j", lookupA m "kafka" with
    | some b, some p, some n, some k => (true, some (mkInventory b p n k))
    | _, _, _, _ => (false, fs)

/-- The steps (and the one warning) of the `deploy` flow, in the order
they are performed. -/
inductive Event where
  | buildContainer
  | updateInventory
  | testConnectivity
  | checkDocker
  | warnDockerUnavailable
  | setupDocker
  | runDeployment
deriving DecidableEq

/-- `deploy`: the complete flow.  Returns the boolean result, the ordered
list of performed steps, and the final inventory-file state.  Mirrors the
Python control flow: build the control container, update the inventory,
optionally test connectivity, check the runtime, optionally install it
(or merely warn when installation is disabled), then run the deployment;
each failing step aborts immediately. -/
def deploy (env : ExtEnv) (cfg : VmConfig) (fs : Option Inventory)
    (skip_connectivity_test : Bool) (setup_docker_first : Bool) :
    Bool × List Event × Option Inventory :=
  if build_ansible_container env then
    let ui := update_inventory cfg fs
    if ui.1 then
      if skip_connectivity_test || test_connectivity env then
        let t1 :=
          if skip_connectivity_test then
            [Event.buildContainer, Event.updateInventory]
          else
            [Event.buildContainer, Event.updateInventory,
              Event.testConnectivity]
        let avail := check_docker_on_vms env
        if !avail && setup_docker_first then
          if setup_docker env then
            if run_deployment env then
              (true, t1 ++ [Event.checkDocker, Event.setupDocker,
                Event.runDeployment], ui.2)
            else
              (false, t1 ++ [Event.checkDocker, Event.setupDocker,
                Event.runDeployment], ui.2)
          else
            (false, t1 ++ [Event.checkDocker, Event.setupDocker], ui.2)
        else
          let t2 :=
            if !avail && !setup_docker_first then
              t1 ++ [Event.checkDocker, Event.warnDockerUnavailable]
            else
              t1 ++ [Event.checkDocker]
          if run_deployment env then
            (true, t2 ++ [Event.runDeployment], ui.2)
          else
            (false, t2 ++ [Event.runDeployment], ui.2)
      else
        (false, [Event.buildContainer, Event.updateInventory,
          Event.testConnectivity], ui.2)
    else
      (false, [Event.buildContainer, Event.updateInventory], ui.2)
  else
    (false, [Event.buildContainer], fs)

/-- `setup_docker_only`: build the control container, update the
inventory, test connectivity, then run the Docker setup playbook; each
failing step aborts immediately. -/
def setup_docker_only (env : ExtEnv) (cfg : VmConfig)
    (fs : Option Inventory) : Bool × List Event × Option Inventory :=
  if build_ansible_container env then
    let ui := update_inventory cfg fs
    if ui.1 then
      if test_connectivity env then
        if setup_docker env then
          (true, [Event.buildContainer, Event.updateInventory,
            Event.testConnectivity, Event.setupDocker], ui.2)
        else
          (false, [Event.buildContainer, Event.updateInventory,
            Event.testConnectivity, Event.setupDocker], ui.2)
      else
        (false, [Event.buildContainer, Event.updateInventory,
          Event.testConnectivity], ui.2)
    else
      (false, [Event.buildContainer, Event.updateInventory], ui.2)
  else
    (false, [Event.buildContainer], fs)

end DMAPDeployer

/-- The hard-coded default VM configuration of `main`. -/
def defaultVmConfig : VmConfig :=
  [("vm1", ["54.226.239.194", "ubuntu", "postgres"]),
   ("vm2", ["18.207.127.165", "ubuntu", "neo4j"]),
   ("vm3", ["3.83.229.79", "ubuntu", "kafka"]),
   ("vm4", ["54.167.120.93", "ubuntu", "backend"])]

/-- The command-line arguments of `main` after parsing. -/
structure Args where
  vm_config_given : Bool
  skip_connectivity : Bool
  skip_docker_setup : Bool
  docker_setup_only : Bool
deriving DecidableEq

namespace DeployScript

/-- `main`: reads the VM configuration from the given file (`fileRead`
models the outcome of opening and JSON-parsing it; `none` is an
exception, reported as exit 1) or falls back to the hard-coded default,
then runs `setup_docker_only` or `deploy` according to the flags,
returning exit code 0 on success and 1 on failure. -/
def main (args : Args) (fileRead : Option VmConfig) (env : ExtEnv)
    (fs : Option Inventory) : Int :=
  match (if args.vm_config_given then fileRead else some defaultVmConfig) with
  | none => 1
  | some vm_config =>
    let success :=
      if args.docker_setup_only then
        (DMAPDeployer.setup_docker_only env vm_config fs).1
      else
        (DMAPDeployer.deploy env vm_config fs args.skip_connectivity
          (!args.skip_docker_setup)).1
    if success then 0 else 1

end DeployScript

/-- `deploy_dmap_application`: the programmatic entry point; calls
`deploy` with `skip_connectivity_test=False` and `setup_docker_first`
left at its default `True`, and returns the boolean result. -/
def deploy_dmap_application (env : ExtEnv) (vm_config : VmConfig)
    (fs : Option Inventory) : Bool :=
  (DMAPDeployer.deploy env vm_config fs false true).1

/-- An environment in which every external invocation succeeds. -/
def envAllOk : ExtEnv :=
  { imagesQuery := some "ab12cd34"
    buildRun := some 0
    connectivityRun := some 0
    dockerCheckRun := some 0
    setupDockerRun := some 0
    deployRun := some 0
    verifyRun := some 0 }

/-- A configuration with two entries carrying the role `backend`. -/
def dupVmConfig : VmConfig :=
  [("vmA", ["10.0.0.1", "alice", "backend"]),
   ("vmB", ["10.0.0.2", "bob", "backend"]),
   ("vm2", ["10.0.0.3", "carol", "postgres"]),
   ("vm3", ["10.0.0.4", "dave", "neo4j"]),
   ("vm4", ["10.0.0.5", "erin", "kafka"])]

/-- An environment in which every external invocation succeeds except
that the runtime availability probe reports exit code 1. -/
def envDockerDown : ExtEnv :=
  { envAllOk with dockerCheckRun := some 1 }

/-- A configuration with entries for only three of the four roles. -/
def missingRoleVmConfig : VmConfig :=
  [("vm1", ["10.0.0.3", "carol", "postgres"]),
   ("vm3", ["10.0.0.4", "dave", "neo4j"]),
   ("vm4", ["10.0.0.5", "erin", "kafka"])]

/-- A configuration in which one entry's value is not a triple. -/
def badArityVmConfig : VmConfig :=
  [("vm1", ["10.0.0.3", "carol", "postgres"]),
   ("vm2", ["10.0.0.4", "dave"])]

/-- Option fallback: the semantics of trying the first lookup and
falling back to the second. -/
def orElseO (a b : Option VmInfo) : Option VmInfo :=
  match a with
  | some v => some v
  | none => b

theorem lookupA_assocSet (l : List (String × VmInfo)) (k r : String)
    (v : VmInfo) :
    lookupA (assocSet l k v) r = if k = r then some v else lookupA l r := by
  induction l with
  | nil => simp [assocSet, lookupA]
  | cons e rest ih =>
    obtain ⟨k', v'⟩ := e
    by_cases hk : k' = k
    · subst hk
      by_cases hr : k' = r <;> simp [assocSet, lookupA, hr]
    · by_cases hr : k' = r
      · subst hr
        have hkr : ¬ k = k' := fun h => hk h.symm
        simp [assocSet, lookupA, hk, hkr]
      · simp [assocSet, lookupA, hk, hr, ih]

theorem lookupA_buildAux (cfg : VmConfig) (acc m : List (String × VmInfo))
    (r : String) (h : buildAux cfg acc = some m) :
    lookupA m r = orElseO (lastWithRole cfg r) (lookupA acc r) := by
  induction cfg generalizing acc with
  | nil =>
    simp [buildAux] at h
    subst h
    simp [lastWithRole, orElseO]
  | cons e rest ih =>
    obtain ⟨nm, val⟩ := e
    rcases val with _ | ⟨a, _ | ⟨b, _ | ⟨c, _ | ⟨d, tl⟩⟩⟩⟩ <;>
      simp [buildAux] at h
    have hih := ih (assocSet acc c ⟨nm, a, b⟩) h
    cases hl : lastWithRole rest r with
    | some w => simp [lastWithRole, hl, orElseO] at hih ⊢; exact hih
    | none =>
      simp [lastWithRole, hl, orElseO] at hih ⊢
      rw [hih, lookupA_assocSet]
      by_cases hc : c = r <;> simp [hc]

theorem buildAux_none_of_bad (cfg : VmConfig) (acc : List (String × VmInfo))
    (e : String × List String) (he : e ∈ cfg) (hlen : e.2.length ≠ 3) :
    buildAux cfg acc = none := by
  induction cfg generalizing acc with
  | nil => cases he
  | cons a rest ih =>
    obtain ⟨nm, val⟩ := a
    rcases List.mem_cons.mp he with he1 | he2
    · subst he1
      rcases val with _ | ⟨x, _ | ⟨y, _ | ⟨z, _ | ⟨w, tl⟩⟩⟩⟩ <;>
        simp at hlen <;> simp [buildAux]
    · rcases val with _ | ⟨x, _ | ⟨y, _ | ⟨z, _ | ⟨w, tl⟩⟩⟩⟩ <;>
        simp [buildAux]
      exact ih _ he2

theorem buildAux_some_of_wf (cfg : VmConfig) (acc : List (String × VmInfo))
    (h : ∀ e ∈ cfg, e.2.length = 3) :
    ∃ m, buildAux cfg acc = some m := by
  induction cfg generalizing acc with
  | nil => exact ⟨acc, rfl⟩
  | cons a rest ih =>
    have ha := h a (List.mem_cons_self a rest)
    obtain ⟨nm, val⟩ := a
    rcases val with _ | ⟨x, _ | ⟨y, _ | ⟨z, _ | ⟨w, tl⟩⟩⟩⟩ <;> simp at ha
    simp only [buildAux]
    exact ih (assocSet acc z ⟨nm, x, y⟩)
      (fun e he => h e (List.mem_cons_of_mem _ he))

theorem lastWithRole_eq_none (cfg : VmConfig) (r : String)
    (h : ∀ e ∈ cfg, hasRole r e = false) : lastWithRole cfg r = none := by
  induction cfg with
  | nil => simp [lastWithRole]
  | cons a rest ih =>
    have ha := h a (List.mem_cons_self a rest)
    have hrest := ih (fun e he => h e (List.mem_cons_of_mem _ he))
    obtain ⟨nm, val⟩ := a
    rcases val with _ | ⟨x, _ | ⟨y, _ | ⟨z, _ | ⟨w, tl⟩⟩⟩⟩
    · simp [lastWithRole, hrest]
    · simp [lastWithRole, hrest]
    · simp [lastWithRole, hrest]
    · simp [hasRole, entryRole] at ha
      simp [lastWithRole, hrest, ha]
    · simp [lastWithRole, hrest]

theorem lastWithRole_eq_some (cfg : VmConfig) (r nm i u : String)
    (h : cfg.filter (hasRole r) = [(nm, [i, u, r])]) :
    lastWithRole cfg r = some ⟨nm, i, u⟩ := by
  induction cfg with
  | nil => simp at h
  | cons a rest ih =>
    cases hh : hasRole r a with
    | true =>
      rw [List.filter_cons_of_pos hh] at h
      injection h with h1 h2
      subst h1
      rw [List.filter_eq_nil_iff] at h2
      have hlast := lastWithRole_eq_none rest r (fun e he => by
        have := h2 e he
        simpa using this)
      simp [lastWithRole, hlast]
    | false =>
      rw [List.filter_cons_of_neg (by simp [hh])] at h
      have hrest := ih h
      simp [lastWithRole, hrest]

/-- `update_inventory` on a well-formed configuration with every role
present writes the document built from the last entry carrying each role
(Python dict assignment is last-write-wins). -/
theorem update_inventory_lastWins (cfg : VmConfig) (fs : Option Inventory)
    (b p n k : VmInfo)
    (hwf : ∀ e ∈ cfg, e.2.length = 3)
    (hb : lastWithRole cfg "backend" = some b)
    (hp : lastWithRole cfg "postgres" = some p)
    (hn : lastWithRole cfg "neo4j" = some n)
    (hk : lastWithRole cfg "kafka" = some k) :
    DMAPDeployer.update_inventory cfg fs = (true, some (mkInventory b p n k)) := by
  obtain ⟨m, hm⟩ := buildAux_some_of_wf cfg [] hwf
  have lb := lookupA_buildAux cfg [] m "backend" hm
  have lp := lookupA_buildAux cfg [] m "postgres" hm
  have ln := lookupA_buildAux cfg [] m "neo4j" hm
  have lk := lookupA_buildAux cfg [] m "kafka" hm
  rw [hb] at lb
  rw [hp] at lp
  rw [hn] at ln
  rw [hk] at lk
  simp [orElseO] at lb lp ln lk
  simp [DMAPDeployer.update_inventory, buildServiceToVm, hm, lb, lp, ln, lk]

/-- Claim C2: for every vm_config mapping whose values are triples and
that contains exactly one entry for each of the four roles, the call
returns true and the written inventory document has, for each role,
exactly the host entry of that role's unique configuration entry, with
`ansible_host` its address and `ansible_user` its login user. -/
theorem update_inventory_valid_fourRole (cfg : VmConfig) (fs : Option Inventory)
    (nb ib ub np ipg upg nn ine une nk ika uka : String)
    (hwf : ∀ e ∈ cfg, e.2.length = 3)
    (hb : cfg.filter (hasRole "backend") = [(nb, [ib, ub, "backend"])])
    (hp : cfg.filter (hasRole "postgres") = [(np, [ipg, upg, "postgres"])])
    (hn : cfg.filter (hasRole "neo4j") = [(nn, [ine, une, "neo4j"])])
    (hk : cfg.filter (hasRole "kafka") = [(nk, [ika, uka, "kafka"])]) :
    DMAPDeployer.update_inventory cfg fs =
      (true, some (mkInventory ⟨nb, ib, ub⟩ ⟨np, ipg, upg⟩
        ⟨nn, ine, une⟩ ⟨nk, ika, uka⟩)) :=
  update_inventory_lastWins cfg fs _ _ _ _ hwf
    (lastWithRole_eq_some cfg _ _ _ _ hb)
    (lastWithRole_eq_some cfg _ _ _ _ hp)
    (lastWithRole_eq_some cfg _ _ _ _ hn)
    (lastWithRole_eq_some cfg _ _ _ _ hk)

theorem update_inventory_valid_fourRole_witness :
    DMAPDeployer.update_inventory defaultVmConfig none =
      (true, some (mkInventory ⟨"vm4", "54.167.120.93", "ubuntu"⟩
        ⟨"vm1", "54.226.239.194", "ubuntu"⟩ ⟨"vm2", "18.207.127.165", "ubuntu"⟩
        ⟨"vm3", "3.83.229.79", "ubuntu"⟩)) :=
  update_inventory_valid_fourRole defaultVmConfig none _ _ _ _ _ _ _ _ _ _ _ _
    (by decide) (by decide) (by decide) (by decide) (by decide)

/-- Claim C3: for every vm_config mapping whose values are triples and
in which one of the four required roles has no entry, `update_inventory`
returns false (the role lookup fails) and the inventory-file state is
left unchanged. -/
theorem update_inventory_missing_role (cfg : VmConfig) (fs : Option Inventory)
    (r : String)
    (hwf : ∀ e ∈ cfg, e.2.length = 3)
    (hr : r = "backend" ∨ r = "postgres" ∨ r = "neo4j" ∨ r = "kafka")
    (hmiss : ∀ e ∈ cfg, hasRole r e = false) :
    DMAPDeployer.update_inventory cfg fs = (false, fs) := by
  obtain ⟨m, hm⟩ := buildAux_some_of_wf cfg [] hwf
  have hlast := lastWithRole_eq_none cfg r hmiss
  have hlook : lookupA m r = none := by
    have hx := lookupA_buildAux cfg [] m r hm
    rw [hlast] at hx
    simpa [orElseO, lookupA] using hx
  rcases hr with rfl | rfl | rfl | rfl <;>
    simp only [DMAPDeployer.update_inventory, buildServiceToVm, hm] <;>
    cases h1 : lookupA m "backend" <;>
    cases h2 : lookupA m "postgres" <;>
    cases h3 : lookupA m "neo4j" <;>
    cases h4 : lookupA m "kafka" <;>
    simp_all

theorem update_inventory_missing_role_witness :
    DMAPDeployer.update_inventory missingRoleVmConfig
      (some (mkInventory ⟨"h0", "a0", "u0"⟩ ⟨"h1", "a1", "u1"⟩
        ⟨"h2", "a2", "u2"⟩ ⟨"h3", "a3", "u3"⟩)) =
      (false, some (mkInventory ⟨"h0", "a0", "u0"⟩ ⟨"h1", "a1", "u1"⟩
        ⟨"h2", "a2", "u2"⟩ ⟨"h3", "a3", "u3"⟩)) :=
  update_inventory_missing_role missingRoleVmConfig _ "backend"
    (by decide) (Or.inl rfl) (by decide)

/-- Claim C4 as stated is false: the first-seen entry for a duplicated
role is not the one written.  At `dupVmConfig` the first entry carrying
role backend is `vmA`, yet the written backend host is `vmB`'s. -/
theorem update_inventory_first_seen_counterexample :
    (dupVmConfig.filter (hasRole "backend")).head? =
      some ("vmA", ["10.0.0.1", "alice", "backend"]) ∧
    DMAPDeployer.update_inventory dupVmConfig none =
      (true, some (mkInventory ⟨"vmB", "10.0.0.2", "bob"⟩
        ⟨"vm2", "10.0.0.3", "carol"⟩ ⟨"vm3", "10.0.0.4", "dave"⟩
        ⟨"vm4", "10.0.0.5", "erin"⟩)) ∧
    (mkInventory ⟨"vmB", "10.0.0.2", "bob"⟩ ⟨"vm2", "10.0.0.3", "carol"⟩
        ⟨"vm3", "10.0.0.4", "dave"⟩ ⟨"vm4", "10.0.0.5", "erin"⟩).backend ≠
      ("vmA", { ansible_host := "10.0.0.1", ansible_user := "alice" }) := by
  decide

/-- Claim C4, amended: for duplicated roles `update_inventory` selects
the last-seen entry — the host written for each role is the last entry
with that role in the mapping's iteration order. -/
theorem update_inventory_duplicate_last_seen (cfg : VmConfig)
    (fs : Option Inventory) (b p n k : VmInfo)
    (hwf : ∀ e ∈ cfg, e.2.length = 3)
    (hb : lastWithRole cfg "backend" = some b)
    (hp : lastWithRole cfg "postgres" = some p)
    (hn : lastWithRole cfg "neo4j" = some n)
    (hk : lastWithRole cfg "kafka" = some k) :
    DMAPDeployer.update_inventory cfg fs = (true, some (mkInventory b p n k)) :=
  update_inventory_lastWins cfg fs b p n k hwf hb hp hn hk

theorem update_inventory_duplicate_last_seen_witness :
    DMAPDeployer.update_inventory dupVmConfig
      (some (mkInventory ⟨"x0", "y0", "z0"⟩ ⟨"x1", "y1", "z1"⟩
        ⟨"x2", "y2", "z2"⟩ ⟨"x3", "y3", "z3"⟩)) =
      (true, some (mkInventory ⟨"vmB", "10.0.0.2", "bob"⟩
        ⟨"vm2", "10.0.0.3", "carol"⟩ ⟨"vm3", "10.0.0.4", "dave"⟩
        ⟨"vm4", "10.0.0.5", "erin"⟩)) :=
  update_inventory_duplicate_last_seen dupVmConfig _ _ _ _ _
    (by decide) (by decide) (by decide) (by decide) (by decide)

/-- Claim C10: for every vm_config mapping in which some entry's value is
not a sequence of exactly three elements, `update_inventory` catches the
unpacking error, returns false, and leaves the inventory-file state
unchanged. -/
theorem update_inventory_bad_arity (cfg : VmConfig) (fs : Option Inventory)
    (e : String × List String) (he : e ∈ cfg) (hlen : e.2.length ≠ 3) :
    DMAPDeployer.update_inventory cfg fs = (false, fs) := by
  have hn := buildAux_none_of_bad cfg [] e he hlen
  simp [DMAPDeployer.update_inventory, buildServiceToVm, hn]

theorem update_inventory_bad_arity_witness :
    DMAPDeployer.update_inventory badArityVmConfig none = (false, none) :=
  update_inventory_bad_arity badArityVmConfig none ("vm2", ["10.0.0.4", "dave"])
    (by decide) (by decide)

/-- Claim C1: with the default hard-coded four-VM mapping and every
external tool invocation succeeding, `deploy` returns true and performs
exactly the steps build container, write inventory, test connectivity,
check runtime, run deployment, in that order with nothing interleaved. -/
theorem deploy_default_allOk (env : ExtEnv) (fs : Option Inventory)
    (h1 : env.imagesQuery.isSome = true)
    (h2 : env.buildRun = some 0)
    (h3 : env.connectivityRun = some 0)
    (h4 : env.dockerCheckRun = some 0)
    (h5 : env.deployRun = some 0) :
    (DMAPDeployer.deploy env defaultVmConfig fs false true).1 = true ∧
    (DMAPDeployer.deploy env defaultVmConfig fs false true).2.1 =
      [DMAPDeployer.Event.buildContainer, DMAPDeployer.Event.updateInventory,
       DMAPDeployer.Event.testConnectivity, DMAPDeployer.Event.checkDocker,
       DMAPDeployer.Event.runDeployment] := by
  have hb : DMAPDeployer.build_ansible_container env = true := by
    unfold DMAPDeployer.build_ansible_container
      DMAPDeployer.build_ansible_container_t
    cases hc : DMAPDeployer.check_container_exists env <;> simp [hc, h2]
  have hui : DMAPDeployer.update_inventory defaultVmConfig fs =
      (true, some (mkInventory ⟨"vm4", "54.167.120.93", "ubuntu"⟩
        ⟨"vm1", "54.226.239.194", "ubuntu"⟩ ⟨"vm2", "18.207.127.165", "ubuntu"⟩
        ⟨"vm3", "3.83.229.79", "ubuntu"⟩)) := rfl
  have hconn : DMAPDeployer.test_connectivity env = true := by
    simp [DMAPDeployer.test_connectivity, h3]
  have hcheck : DMAPDeployer.check_docker_on_vms env = true := by
    simp [DMAPDeployer.check_docker_on_vms, h4]
  have hrun : DMAPDeployer.run_deployment env = true := by
    simp [DMAPDeployer.run_deployment, h5]
  constructor <;> simp [DMAPDeployer.deploy, hb, hui, hconn, hcheck, hrun]

theorem deploy_default_allOk_witness :
    (DMAPDeployer.deploy envAllOk defaultVmConfig none false true).1 = true ∧
    (DMAPDeployer.deploy envAllOk defaultVmConfig none false true).2.1 =
      [DMAPDeployer.Event.buildContainer, DMAPDeployer.Event.updateInventory,
       DMAPDeployer.Event.testConnectivity, DMAPDeployer.Event.checkDocker,
       DMAPDeployer.Event.runDeployment] :=
  deploy_default_allOk envAllOk none rfl rfl rfl rfl rfl

/-- Claim C5: in the deploy flow, when the runtime availability check
reports false and Docker setup is disabled, the flow does not abort: it
emits the warning and still invokes the deployment step, without running
the setup step. -/
theorem deploy_docker_unavailable_permissive (env : ExtEnv) (cfg : VmConfig)
    (fs : Option Inventory) (skip : Bool)
    (hb : DMAPDeployer.build_ansible_container env = true)
    (hu : (DMAPDeployer.update_inventory cfg fs).1 = true)
    (hc : skip = true ∨ DMAPDeployer.test_connectivity env = true)
    (hd : DMAPDeployer.check_docker_on_vms env = false) :
    DMAPDeployer.Event.warnDockerUnavailable ∈
      (DMAPDeployer.deploy env cfg fs skip false).2.1 ∧
    DMAPDeployer.Event.runDeployment ∈
      (DMAPDeployer.deploy env cfg fs skip false).2.1 ∧
    DMAPDeployer.Event.setupDocker ∉
      (DMAPDeployer.deploy env cfg fs skip false).2.1 := by
  rcases hc with rfl | hc
  · cases hrun : DMAPDeployer.run_deployment env <;>
      simp [DMAPDeployer.deploy, hb, hu, hd, hrun]
  · cases skip <;> cases hrun : DMAPDeployer.run_deployment env <;>
      simp [DMAPDeployer.deploy, hb, hu, hc, hd, hrun]

theorem deploy_docker_unavailable_permissive_witness :
    DMAPDeployer.Event.warnDockerUnavailable ∈
      (DMAPDeployer.deploy envDockerDown defaultVmConfig none false false).2.1 ∧
    DMAPDeployer.Event.runDeployment ∈
      (DMAPDeployer.deploy envDockerDown defaultVmConfig none false false).2.1 ∧
    DMAPDeployer.Event.setupDocker ∉
      (DMAPDeployer.deploy envDockerDown defaultVmConfig none false false).2.1 :=
  deploy_docker_unavailable_permissive envDockerDown defaultVmConfig none false
    (by decide) (by decide) (Or.inr (by decide)) (by decide)

/-- Claim C6: when `deploy` is called with the connectivity test skipped,
the connectivity step is never in the performed steps, and once the
inventory step succeeds the next step performed is the runtime
availability check. -/
theorem deploy_skip_connectivity (env : ExtEnv) (cfg : VmConfig)
    (fs : Option Inventory) (sdf : Bool) :
    DMAPDeployer.Event.testConnectivity ∉
      (DMAPDeployer.deploy env cfg fs true sdf).2.1 ∧
    (DMAPDeployer.build_ansible_container env = true →
      (DMAPDeployer.update_inventory cfg fs).1 = true →
      (DMAPDeployer.deploy env cfg fs true sdf).2.1.take 3 =
        [DMAPDeployer.Event.buildContainer, DMAPDeployer.Event.updateInventory,
         DMAPDeployer.Event.checkDocker]) := by
  cases hB : DMAPDeployer.build_ansible_container env <;>
    cases hU : (DMAPDeployer.update_inventory cfg fs).1 <;>
    cases hD : DMAPDeployer.check_docker_on_vms env <;>
    cases sdf <;>
    cases hS : DMAPDeployer.setup_docker env <;>
    cases hR : DMAPDeployer.run_deployment env <;>
    simp [DMAPDeployer.deploy, hB, hU, hD, hS, hR]

/-- Claim C7: when the image existence query reports the control image
present, `build_ansible_container` returns true having invoked only the
query; the build command is invoked exactly when the image is absent. -/
theorem build_ansible_container_short_circuit (env : ExtEnv) :
    (DMAPDeployer.check_container_exists env = true →
      DMAPDeployer.build_ansible_container_t env =
        (true, [DMAPDeployer.Cmd.dockerImagesQuery])) ∧
    (DMAPDeployer.Cmd.dockerBuild ∈
        (DMAPDeployer.build_ansible_container_t env).2 ↔
      DMAPDeployer.check_container_exists env = false) ∧
    DMAPDeployer.build_ansible_container env =
      (DMAPDeployer.build_ansible_container_t env).1 := by
  refine ⟨?_, ?_, rfl⟩ <;>
    cases hc : DMAPDeployer.check_container_exists env <;>
    cases hbr : env.buildRun <;>
    simp [DMAPDeployer.build_ansible_container_t, hc, hbr]

/-- Claim C8: `main` exits 0 exactly when the selected flow (deploy or
setup-docker-only) returns true, and exits 1 both when a step aborts the
flow and when the supplied configuration file cannot be read. -/
theorem main_exit_codes (args : Args) (fileRead : Option VmConfig)
    (env : ExtEnv) (fs : Option Inventory) :
    (DeployScript.main args fileRead env fs = 0 ∨
      DeployScript.main args fileRead env fs = 1) ∧
    (args.vm_config_given = true → fileRead = none →
      DeployScript.main args fileRead env fs = 1) ∧
    (∀ cfg,
      (if args.vm_config_given then fileRead else some defaultVmConfig) =
        some cfg →
      (DeployScript.main args fileRead env fs = 0 ↔
        (if args.docker_setup_only then
          (DMAPDeployer.setup_docker_only env cfg fs).1
         else
          (DMAPDeployer.deploy env cfg fs args.skip_connectivity
            (!args.skip_docker_setup)).1) = true)) := by
  refine ⟨?_, ?_, ?_⟩
  · rcases hc : (if args.vm_config_given then fileRead
        else some defaultVmConfig) with _ | cfg
    · simp [DeployScript.main, hc]
    · cases hs : (if args.docker_setup_only then
          (DMAPDeployer.setup_docker_only env cfg fs).1
        else
          (DMAPDeployer.deploy env cfg fs args.skip_connectivity
            (!args.skip_docker_setup)).1) <;>
        simp [DeployScript.main, hc, hs]
  · intro h1 h2
    simp [DeployScript.main, h1, h2]
  · intro cfg hcfg
    cases hs : (if args.docker_setup_only then
        (DMAPDeployer.setup_docker_only env cfg fs).1
      else
        (DMAPDeployer.deploy env cfg fs args.skip_connectivity
          (!args.skip_docker_setup)).1) <;>
      simp [DeployScript.main, hcfg, hs]

/-- Claim C9: the programmatic entry point always runs the flow with the
connectivity test enabled and Docker setup on check failure enabled: it
equals `deploy` at those fixed flags, a connectivity failure aborts it,
and when the runtime check fails a failing Docker setup aborts it. -/
theorem deploy_dmap_application_fixed_flags (env : ExtEnv) (cfg : VmConfig)
    (fs : Option Inventory) :
    deploy_dmap_application env cfg fs =
      (DMAPDeployer.deploy env cfg fs false true).1 ∧
    (DMAPDeployer.build_ansible_container env = true →
      (DMAPDeployer.update_inventory cfg fs).1 = true →
      DMAPDeployer.test_connectivity env = false →
      deploy_dmap_application env cfg fs = false) ∧
    (DMAPDeployer.build_ansible_container env = true →
      (DMAPDeployer.update_inventory cfg fs).1 = true →
      DMAPDeployer.test_connectivity env = true →
      DMAPDeployer.check_docker_on_vms env = false →
      DMAPDeployer.setup_docker env = false →
      deploy_dmap_application env cfg fs = false) := by
  refine ⟨rfl, ?_, ?_⟩
  · intro hb hu hc
    simp [deploy_dmap_application, DMAPDeployer.deploy, hb, hu, hc]
  · intro hb hu hc hd hs
    simp [deploy_dmap_application, DMAPDeployer.deploy, hb, hu, hc, hd, hs]
